import Mathlib

/-
Verification development for git-vivado.py: a layered, template-expanding
configuration resolver plus an external-process orchestration layer that
maps subprocess outcomes onto a small set of exit codes.

The Python source is shallowly embedded below.  Pure string/list
manipulation becomes Lean functions; the effects (reading config files,
launching the external tool, printing to stderr, sys.exit, uncaught
exceptions) become explicit data: the file system is a function from path
to FileState, the subprocess layer is a function from the argument vector
to a RunResult, stderr output is accumulated in a list of lines, and
termination is an Outcome value (normal return, sys.exit with a code, or
an uncaught exception carrying a message).
-/

namespace GitVivado

/-- Exit codes, from the ExitCode enum (git-vivado.py lines 12-18).
The comments in the source note that 0 is returned automatically on
success and 1 automatically on an uncaught exception. -/
def ExitCode.SUCCESS : Nat := 0

/-- Generic failure exit code (returned by Python on an uncaught exception). -/
def ExitCode.FAILURE : Nat := 1

/-- Configuration error exit code. -/
def ExitCode.BAD_CONFIG : Nat := 2

/-- Checkin failure exit code. -/
def ExitCode.CHECKIN_ERROR : Nat := 3

/-- Checkout failure exit code. -/
def ExitCode.CHECKOUT_ERROR : Nat := 4

/-- Release failure exit code (the same numeric value as checkout, line 18). -/
def ExitCode.RELEASE_ERROR : Nat := 4

/-- Configuration values.  The schema of git-vivado.py only uses strings
and one boolean (no_hdf); JSON files supply the same.  These are the two
shapes the program distinguishes: line 84 formats a value exactly when it
is a str and passes every other value through unchanged. -/
inductive Value where
  | str (s : String)
  | bool (b : Bool)
deriving DecidableEq, Repr

/-- Python str() on a config value, as used by str.format substitution. -/
def pyStr : Value → String
  | .str s => s
  | .bool b => if b then "True" else "False"

/-- A Python dict with string keys, as an insertion-ordered association
list with unique keys (the invariant Python dicts maintain). -/
abbrev Dict := List (String × Value)

/-- Python d[k] lookup / membership, returning the value stored at key k. -/
def Dict.find : Dict → String → Option Value
  | [], _ => none
  | (k0, v0) :: rest, k => if k = k0 then some v0 else Dict.find rest k

/-- Python d[k] = v: replace in place when the key exists (keeping its
position), otherwise append at the end, exactly as dict insertion does. -/
def Dict.set : Dict → String → Value → Dict
  | [], k, v => [(k, v)]
  | (k0, v0) :: rest, k, v =>
    if k = k0 then (k0, v) :: rest else (k0, v0) :: Dict.set rest k v

/-- Python d.update(u): set every key/value pair of u into d, in u's order. -/
def Dict.update (d : Dict) (u : Dict) : Dict :=
  u.foldl (fun acc kv => Dict.set acc kv.1 kv.2) d

/-- One schema entry of CONFIG_ITEMS: whether the key is required and,
for optional keys, its default value (line 32-39 always supply one). -/
structure ConfigItem where
  required : Bool
  default : Option Value
deriving DecidableEq, Repr

/-- The configuration schema, in the insertion order of the CONFIG_ITEMS
dict literal (git-vivado.py lines 31-41). -/
def CONFIG_ITEMS : List (String × ConfigItem) :=
  [ ("no_hdf",         ⟨false, some (.bool false)⟩),
    ("project_name",   ⟨true,  none⟩),
    ("repo_path",      ⟨false, some (.str ("."))⟩),
    ("vivado_path",    ⟨true,  none⟩),
    ("vivado_version", ⟨true,  none⟩),
    ("workspace_path", ⟨false, some (.str ("{repo_path}/sdk"))⟩),
    ("xpr_path",       ⟨false, some (.str ("proj/{project_name}.xpr"))⟩),
    ("zip_path",       ⟨false, some (.str ("{repo_path}/release/{project_name}.zip"))⟩) ]

/-- The configuration base filename (git-vivado.py line 47). -/
def CONFIG_FILENAME : String := "vivado-scripts.json"

/-- Whether a path string starts with a slash (POSIX absolute path test). -/
def startsSlash (s : String) : Bool :=
  match s.data with
  | '/' :: _ => true
  | _ => false

/-- Whether a path string ends with a slash. -/
def endsSlash (s : String) : Bool :=
  match s.data.getLast? with
  | some '/' => true
  | _ => false

/-- POSIX os.path.join of two components: the second replaces the first
when absolute, otherwise they are joined with exactly one separator.
(The program only ever reaches its join sites on the Linux branch: the
Windows branch of read_config raises before any path is used.) -/
def os_path_join (a b : String) : String :=
  if startsSlash b then b
  else if a = "" then b
  else if endsSlash a then a ++ b
  else a ++ "/" ++ b

/-- Outcome of running a piece of the program: a normal return, a
sys.exit with the given code, or an uncaught Python exception. -/
inductive Outcome (α : Type) where
  | ok (a : α)
  | exit (code : Nat)
  | exc (e : String)
deriving DecidableEq, Repr

/-- Exit status the operating system observes for an outcome: sys.exit
passes its code through, an uncaught exception makes Python return 1
(the fact recorded beside ExitCode.FAILURE in the source), and a normal
return means execution continues (no exit yet). -/
def Outcome.finalExit : Outcome α → Option Nat
  | .ok _ => none
  | .exit c => some c
  | .exc _ => some ExitCode.FAILURE

/-- Sequence two stderr-printing computations, propagating sys.exit and
uncaught exceptions and concatenating the printed lines. -/
def afterOut (x : List String × Outcome α) (f : α → List String × Outcome β) :
    List String × Outcome β :=
  match x with
  | (out, .ok a) => ((out ++ (f a).1 : List String), (f a).2)
  | (out, .exit c) => (out, .exit c)
  | (out, .exc e) => (out, .exc e)

/-- Result of evaluating a Python expression that may raise. -/
inductive PyResult (α : Type) where
  | ok (a : α)
  | exc (e : String)
deriving DecidableEq, Repr

/-- Scanner state of the str.format template scan: plain text, just
after an opening brace, just after a closing brace, or inside a field
name (the accumulator holds the characters read so far, reversed). -/
inductive FmtMode where
  | normal
  | sawOpen
  | sawClose
  | field (acc : List Char)
deriving DecidableEq, Repr

/-- Core of Python str.format(**config) for the flat field names this
program uses: scan the character list one character at a time; outside a
field, a doubled brace is an escape, an opening brace starts a field,
and a lone closing brace is a ValueError; inside a field, a closing
brace ends the field and substitutes the str() form of the looked-up
value, a missing key being a KeyError.  Substituted text is literal: it
is not rescanned, which is exactly the single-pass behavior of
str.format. -/
def fmtGo (cfg : Dict) : List Char → FmtMode → PyResult (List Char)
  | [], .normal => .ok []
  | [], .sawOpen => .exc ("ValueError: Single \x7b encountered in format string")
  | [], .sawClose => .exc ("ValueError: Single \x7d encountered in format string")
  | [], .field _ => .exc ("ValueError: unmatched \x7b in format string")
  | c :: rest, .normal =>
    if c = '{' then fmtGo cfg rest .sawOpen
    else if c = '}' then fmtGo cfg rest .sawClose
    else
      match fmtGo cfg rest .normal with
      | .ok l => .ok (c :: l)
      | .exc e => .exc e
  | c :: rest, .sawOpen =>
    if c = '{' then
      match fmtGo cfg rest .normal with
      | .ok l => .ok ('{' :: l)
      | .exc e => .exc e
    else if c = '}' then
      match Dict.find cfg "" with
      | some v =>
        match fmtGo cfg rest .normal with
        | .ok l => .ok ((pyStr v).data ++ l)
        | .exc e => .exc e
      | none => .exc ("KeyError: ")
    else fmtGo cfg rest (.field [c])
  | c :: rest, .sawClose =>
    if c = '}' then
      match fmtGo cfg rest .normal with
      | .ok l => .ok ('}' :: l)
      | .exc e => .exc e
    else .exc ("ValueError: Single \x7d encountered in format string")
  | c :: rest, .field acc =>
    if c = '}' then
      match Dict.find cfg (String.mk acc.reverse) with
      | some v =>
        match fmtGo cfg rest .normal with
        | .ok l => .ok ((pyStr v).data ++ l)
        | .exc e => .exc e
      | none => .exc ("KeyError: " ++ String.mk acc.reverse)
    else fmtGo cfg rest (.field (c :: acc))

/-- Python s.format(**cfg) on a whole string. -/
def pyFormat (s : String) (cfg : Dict) : PyResult String :=
  match fmtGo cfg s.data .normal with
  | .ok l => .ok (String.mk l)
  | .exc e => .exc e

/-- State of one candidate configuration file: missing, present and
parsed by json.load into a dict, or present but failing json.load. -/
inductive FileState where
  | absent
  | parsed (d : Dict)
  | unparseable (e : String)
deriving DecidableEq, Repr

/-- The load_file calls of read_config folded over the candidate path
list (git-vivado.py lines 51-59): a path whose file does not exist is
skipped; a parsed file is merged with config.update; an unparseable file
prints the load-error line and exits with BAD_CONFIG.  The printed line
is the literal text of the source (line 58 passes a plain string, not an
f-string, so the braces are not interpolated). -/
def loadAll (fs : String → FileState) : List String → Dict → List String × Outcome Dict
  | [], config => ([], .ok config)
  | p :: rest, config =>
    match fs p with
    | .absent => loadAll fs rest config
    | .parsed d => loadAll fs rest (Dict.update config d)
    | .unparseable _ => (["Error: could not load config: {e}"], .exit ExitCode.BAD_CONFIG)

/-- Required-key check and default filling (git-vivado.py lines 75-81):
for each schema item in order, a key already in the config is kept; a
missing required key prints the error naming it and exits BAD_CONFIG; a
missing optional key is set to its declared default.  (Every optional
item of CONFIG_ITEMS carries a default; a hypothetical item without one
would be a KeyError on the v["default"] subscript.) -/
def fillDefaults : List (String × ConfigItem) → Dict → List String × Outcome Dict
  | [], config => ([], .ok config)
  | (k, item) :: rest, config =>
    if (Dict.find config k).isSome then fillDefaults rest config
    else if item.required then
      (["Error: Missing configuration key: " ++ k], .exit ExitCode.BAD_CONFIG)
    else
      match item.default with
      | some d => fillDefaults rest (Dict.set config k d)
      | none => ([], .exc ("KeyError: default"))

/-- The expansion loop of read_config (git-vivado.py lines 82-84): build
a fresh dict whose string values are formatted against the merged config
(its raw, unexpanded values) and whose other values pass through.  A
format failure is an uncaught exception. -/
def expandEntries (cfg : Dict) : List (String × Value) → PyResult Dict
  | [] => .ok []
  | (k, v) :: rest =>
    match v with
    | .str s =>
      match pyFormat s cfg with
      | .ok t =>
        match expandEntries cfg rest with
        | .ok c => .ok ((k, .str t) :: c)
        | .exc e => .exc e
      | .exc e => .exc e
    | _ =>
      match expandEntries cfg rest with
      | .ok c => .ok ((k, v) :: c)
      | .exc e => .exc e

/-- Expansion step as a printing computation (it prints nothing; a
formatting exception propagates). -/
def expandConfig (cfg : Dict) : List String × Outcome Dict :=
  match expandEntries cfg cfg with
  | .ok c => ([], .ok c)
  | .exc e => ([], .exc e)

/-- The platform detected at module load (git-vivado.py lines 23-28). -/
inductive Platform where
  | linux
  | windows
deriving DecidableEq, Repr

/-- The environment variables read_config consults. -/
structure Env where
  xdg_config_home : Option String
  home : String
  appdata : String

/-- The ordered candidate configuration paths on the Linux branch
(git-vivado.py lines 60-69). -/
def linuxPaths (env : Env) : List String :=
  let xdg :=
    match env.xdg_config_home with
    | some x => x
    | none => os_path_join env.home (".config")
  [ os_path_join (os_path_join xdg ("vivado-scripts")) CONFIG_FILENAME,
    os_path_join xdg CONFIG_FILENAME,
    os_path_join (os_path_join env.home (".vivado-scripts")) CONFIG_FILENAME,
    os_path_join env.home ("." ++ CONFIG_FILENAME),
    CONFIG_FILENAME ]

/-- read_config (git-vivado.py lines 49-85).  On Linux it merges the
candidate files in order, checks required keys / fills defaults, then
expands string templates.  On Windows, line 71 refers to the name
FILENAME, which is defined nowhere in the program (the constant on line
47 is CONFIG_FILENAME), so evaluating the argument list of the first
load_file call raises NameError before any file is consulted. -/
def read_config (p : Platform) (env : Env) (fs : String → FileState) :
    List String × Outcome Dict :=
  match p with
  | .linux =>
    afterOut (afterOut (loadAll fs (linuxPaths env) []) (fillDefaults CONFIG_ITEMS))
      expandConfig
  | .windows => ([], .exc ("NameError: name FILENAME is not defined"))

/-- Whitespace characters removed by Python str.strip(). -/
def isPySpace (c : Char) : Bool :=
  c = ' ' || c = '\t' || c = '\n' || c = '\x0d' || c = '\x0b' || c = '\x0c'

/-- Python s.strip(): drop leading and trailing whitespace. -/
def pyStrip (s : String) : String :=
  String.mk (((s.data.dropWhile isPySpace).reverse.dropWhile isPySpace).reverse)

/-- Whether a scalar is a valid Unicode code point (no surrogates). -/
def validCodepoint (n : Nat) : Bool :=
  n < 0xD800 || (0xE000 ≤ n && n < 0x110000)

/-- Strict UTF-8 decoding of a byte list, as Python bytes.decode("utf-8")
performs it: continuation bytes must be 0x80-0xBF, overlong encodings,
surrogates and out-of-range scalars are rejected; any violation is a
UnicodeDecodeError, modelled as none. -/
def utf8DecodeList : List Nat → Option (List Char)
  | [] => some []
  | b :: rest =>
    if b < 0x80 then
      match utf8DecodeList rest with
      | some cs => some (Char.ofNat b :: cs)
      | none => none
    else if b < 0xC2 then none
    else if b < 0xE0 then
      match rest with
      | b1 :: rest1 =>
        if 0x80 ≤ b1 && b1 < 0xC0 then
          match utf8DecodeList rest1 with
          | some cs => some (Char.ofNat ((b - 0xC0) * 0x40 + (b1 - 0x80)) :: cs)
          | none => none
        else none
      | [] => none
    else if b < 0xF0 then
      match rest with
      | b1 :: b2 :: rest2 =>
        if 0x80 ≤ b1 && b1 < 0xC0 && 0x80 ≤ b2 && b2 < 0xC0 then
          let n := (b - 0xE0) * 0x1000 + (b1 - 0x80) * 0x40 + (b2 - 0x80)
          if 0x800 ≤ n && validCodepoint n then
            match utf8DecodeList rest2 with
            | some cs => some (Char.ofNat n :: cs)
            | none => none
          else none
        else none
      | _ => none
    else if b < 0xF5 then
      match rest with
      | b1 :: b2 :: b3 :: rest3 =>
        if 0x80 ≤ b1 && b1 < 0xC0 && 0x80 ≤ b2 && b2 < 0xC0 && 0x80 ≤ b3 && b3 < 0xC0 then
          let n := (b - 0xF0) * 0x40000 + (b1 - 0x80) * 0x1000 + (b2 - 0x80) * 0x40 + (b3 - 0x80)
          if 0x10000 ≤ n && n < 0x110000 then
            match utf8DecodeList rest3 with
            | some cs => some (Char.ofNat n :: cs)
            | none => none
          else none
        else none
      | _ => none
    else none

/-- Strict UTF-8 decoding to a string. -/
def utf8Decode (bs : List Nat) : Option String :=
  match utf8DecodeList bs with
  | some cs => some (String.mk cs)
  | none => none

/-- What subprocess.run hands back for a launched child: its exit status
and the raw bytes of both captured streams. -/
structure RawProcess where
  returncode : Int
  stdout : List Nat
  stderr : List Nat

/-- The named tuple run_cmd builds (git-vivado.py lines 104-109). -/
structure CmdResult where
  returncode : Int
  stderr : String
  stdout : String
deriving DecidableEq, Repr

/-- run_cmd (git-vivado.py lines 87-109) after the child has been waited
for: build the CmdResult from the exit status and both streams, each
decoded with the supplied encoding and stripped.  No branch inspects the
exit status.  A decode failure (none) is an exception propagating to the
caller.  The source's default encoding argument is DEFAULT_ENCODING =
"utf-8", i.e. the utf8Decode function here. -/
def runCmd (encoding : List Nat → Option String) (p : RawProcess) : Option CmdResult :=
  match encoding p.stderr with
  | none => none
  | some se =>
    match encoding p.stdout with
    | none => none
    | some so => some ⟨p.returncode, pyStrip se, pyStrip so⟩

/-- Python s.replace(a, b) for one-character patterns, as used with
backslash and forward slash on paths. -/
def pyReplaceChar (s : String) (a b : Char) : String :=
  String.mk (s.data.map fun c => if c = a then b else c)

/-- The named tuple parse_args returns (git-vivado.py lines 241-253). -/
structure Args where
  no_hdf : Bool
  repo_path : String
  script_dir : String
  vivado_path : String
  vivado_version : String
  workspace_path : String
  xpr_path : String
  zip_path : String

/-- The post-processing parse_args applies when building its result
tuple (git-vivado.py lines 244-253): repo, xpr and zip paths have
backslashes replaced and are made absolute (abspath depends on the
working directory and is passed in as a function), the Vivado binary
path has backslashes replaced, the script directory is the directory of
the program's own file (passed in), and version/workspace pass through. -/
def mkArgs (abspath : String → String) (no_hdf : Bool)
    (repo_path script_dir vivado_path vivado_version workspace_path xpr_path zip_path :
      String) : Args :=
  { no_hdf := no_hdf
    repo_path := abspath (pyReplaceChar repo_path '\\' '/')
    script_dir := script_dir
    vivado_path := pyReplaceChar vivado_path '\\' '/'
    vivado_version := vivado_version
    workspace_path := workspace_path
    xpr_path := abspath (pyReplaceChar xpr_path '\\' '/')
    zip_path := abspath (pyReplaceChar zip_path '\\' '/') }

/-- The script path built on git-vivado.py line 130: join the script
directory with the script name and turn backslashes into slashes. -/
def scriptPath (script_dir name : String) : String :=
  pyReplaceChar (os_path_join script_dir name) '\\' '/'

/-- The argument vector of git-vivado.py lines 134-145, given the
already-built script path: tool binary, batch-mode flags, the script,
then the flag-tagged tclargs, with -no_hdf appended exactly when the
no-HDF option is set. -/
def vivadoCmdWith (args : Args) (script_path : String) : List String :=
  [ args.vivado_path,
    "-mode", "batch",
    "-source", script_path,
    "-tclargs",
    "-x", args.xpr_path,
    "-r", args.repo_path,
    "-v", args.vivado_version,
    "-w", args.workspace_path ] ++
  (if args.no_hdf then ["-no_hdf"] else [])

/-- The full argument vector vivado_tcl passes to run_cmd. -/
def vivadoCmd (args : Args) (name : String) : List String :=
  vivadoCmdWith args (scriptPath args.script_dir name)

/-- What the external invocation produced: either run_cmd returned a
CmdResult, or an exception was raised while building the cmd list,
launching the process, or decoding its streams. -/
inductive RunResult where
  | launched (r : CmdResult)
  | raised (e : String)
deriving DecidableEq, Repr

/-- vivado_tcl (git-vivado.py lines 120-155) with its two effectful
steps abstracted.  script_step is the evaluation of line 130 — note it
sits OUTSIDE the try block, so an exception there propagates raw.
runStep covers the try block (lines 133-148): building cmd and calling
run_cmd; an exception there is caught into e.  Afterwards (lines
149-155): with an exception caught, print it and exit with the
operation's code; with a non-zero (truthy) returncode, print both
captured streams and exit with the operation's code; otherwise return
normally. -/
def vivado_tcl_steps (script_step : PyResult String) (runStep : String → RunResult)
    (exit_code : Nat) : List String × Outcome Unit :=
  match script_step with
  | .exc e => ([], .exc e)
  | .ok script_path =>
    match runStep script_path with
    | .raised e => (["Exception: " ++ e], .exit exit_code)
    | .launched r =>
      if r.returncode = 0 then ([], .ok ())
      else
        (["Error (stderr): " ++ r.stderr, "Error (stdout): " ++ r.stdout], .exit exit_code)

/-- vivado_tcl with the concrete script path of line 130 (which, being a
join of two strings followed by a replace, evaluates without raising)
and a runner abstracting subprocess creation. -/
def vivado_tcl (args : Args) (name : String) (exit_code : Nat)
    (runner : List String → RunResult) : List String × Outcome Unit :=
  vivado_tcl_steps (.ok (scriptPath args.script_dir name))
    (fun sp => runner (vivadoCmdWith args sp)) exit_code

/-- checkin_handler (git-vivado.py lines 157-161). -/
def checkin_handler (args : Args) (runner : List String → RunResult) :
    List String × Outcome Unit :=
  vivado_tcl args ("vivado-checkin.tcl") ExitCode.CHECKIN_ERROR runner

/-- checkout_handler (git-vivado.py lines 163-167). -/
def checkout_handler (args : Args) (runner : List String → RunResult) :
    List String × Outcome Unit :=
  vivado_tcl args ("vivado-checkout.tcl") ExitCode.CHECKOUT_ERROR runner

/-- release_handler (git-vivado.py lines 169-173). -/
def release_handler (args : Args) (runner : List String → RunResult) :
    List String × Outcome Unit :=
  vivado_tcl args ("vivado-release.tcl") ExitCode.RELEASE_ERROR runner

/-- The three Vivado-driving operations. -/
inductive Op where
  | checkin
  | checkout
  | release
deriving DecidableEq, Repr

/-- Dispatch to the operation's handler. -/
def Op.run : Op → Args → (List String → RunResult) → List String × Outcome Unit
  | .checkin => checkin_handler
  | .checkout => checkout_handler
  | .release => release_handler

/-- The operation-specific failure exit code each handler passes down. -/
def Op.failCode : Op → Nat
  | .checkin => ExitCode.CHECKIN_ERROR
  | .checkout => ExitCode.CHECKOUT_ERROR
  | .release => ExitCode.RELEASE_ERROR

/-- The Tcl script each handler names. -/
def Op.scriptName : Op → String
  | .checkin => "vivado-checkin.tcl"
  | .checkout => "vivado-checkout.tcl"
  | .release => "vivado-release.tcl"

/-- A string free of brace characters: no template placeholder can
survive in it and none can start in it. -/
def braceFree (s : String) : Bool :=
  s.data.all fun c => !(c = '{' || c = '}')

/-- The first required schema key, in CONFIG_ITEMS order, that is absent
from a merged configuration map: the key the specification says a failed
resolution must name.  Stated from the spec for comparison with the
behavior of fillDefaults. -/
def firstMissingRequiredKey (m : Dict) : Option String :=
  if (Dict.find m ("project_name")).isSome then
    if (Dict.find m ("vivado_path")).isSome then
      if (Dict.find m ("vivado_version")).isSome then none
      else some ("vivado_version")
    else some ("vivado_path")
  else some ("project_name")

lemma strData_append (a b : String) : (a ++ b).data = a.data ++ b.data := by
  cases a; cases b; rfl

lemma braceFree_append (a b : String) :
    braceFree (a ++ b) = (braceFree a && braceFree b) := by
  simp [braceFree, strData_append, List.all_append]

lemma fmtGo_braceFree (cfg : Dict) (l : List Char)
    (h : (l.all fun c => !(c = '{' || c = '}')) = true) :
    fmtGo cfg l .normal = .ok l := by
  induction l with
  | nil => rfl
  | cons c rest ih =>
    simp only [List.all_cons, Bool.and_eq_true] at h
    have hc : ¬(c = '{') ∧ ¬(c = '}') := by
      constructor <;> intro hcc <;> simp [hcc] at h
    simp [fmtGo, hc.1, hc.2, ih h.2]

lemma pyFormat_braceFree (s : String) (cfg : Dict) (h : braceFree s = true) :
    pyFormat s cfg = .ok s := by
  obtain ⟨l⟩ := s
  unfold braceFree at h
  simp [pyFormat, fmtGo_braceFree cfg l h]

lemma dictFind_set (d : Dict) (k : String) (v : Value) (k2 : String) :
    Dict.find (Dict.set d k v) k2 = if k2 = k then some v else Dict.find d k2 := by
  induction d with
  | nil => simp [Dict.set, Dict.find]
  | cons kv rest ih =>
    obtain ⟨k0, v0⟩ := kv
    by_cases h : k = k0
    · subst h
      by_cases h2 : k2 = k <;> simp [Dict.set, Dict.find, h2]
    · by_cases h2 : k2 = k0
      · subst h2
        have h3 : ¬(k2 = k) := fun hh => h (Eq.symm hh)
        simp [Dict.set, Dict.find, h, h3]
      · simp [Dict.set, Dict.find, h, h2, ih]

lemma dictFind_not_mem (d : Dict) (k : String) (h : k ∉ d.map Prod.fst) :
    Dict.find d k = none := by
  induction d with
  | nil => rfl
  | cons kv rest ih =>
    simp only [List.map_cons, List.mem_cons] at h
    push_neg at h
    simp [Dict.find, h.1, ih h.2]

lemma dictFind_update (a b : Dict) (k : String) (hb : (b.map Prod.fst).Nodup) :
    Dict.find (Dict.update a b) k =
      if (Dict.find b k).isSome then Dict.find b k else Dict.find a k := by
  induction b generalizing a with
  | nil => simp [Dict.update, Dict.find]
  | cons kv rest ih =>
    obtain ⟨k0, v0⟩ := kv
    simp only [List.map_cons, List.nodup_cons] at hb
    have hupd : Dict.update a ((k0, v0) :: rest) = Dict.update (Dict.set a k0 v0) rest := rfl
    rw [hupd, ih _ hb.2]
    by_cases h : k = k0
    · subst h
      have hnone : Dict.find rest k = none := dictFind_not_mem rest k hb.1
      simp [hnone, Dict.find, dictFind_set]
    · have hcons : Dict.find ((k0, v0) :: rest) k = Dict.find rest k := by
        simp [Dict.find, h]
      simp [hcons, dictFind_set, h]


/-- C5: the argument vector passed to the external tool is exactly the
tool binary path (backslashes replaced by slashes at parse time), the
batch-mode and source flags with the script path joined from the script
directory and normalized, the tclargs marker, the flag-tagged parameters,
and -no_hdf exactly when the no-HDF option is set. -/
theorem vivado_argv_exact (abspath : String → String) (no_hdf : Bool)
    (repo script_dir viv ver ws xpr zip name : String) :
    vivadoCmd (mkArgs abspath no_hdf repo script_dir viv ver ws xpr zip) name =
      [ pyReplaceChar viv '\\' '/',
        "-mode", "batch",
        "-source", pyReplaceChar (os_path_join script_dir name) '\\' '/',
        "-tclargs",
        "-x", abspath (pyReplaceChar xpr '\\' '/'),
        "-r", abspath (pyReplaceChar repo '\\' '/'),
        "-v", ver,
        "-w", ws ] ++
      (if no_hdf then ["-no_hdf"] else []) := rfl

/-- C7: a candidate configuration file that exists but cannot be parsed
makes resolution exit with BAD_CONFIG, but the printed line is the fixed
literal text of source line 58 for every parse-failure cause e, because
the message string lacks its f prefix. -/
theorem unparseable_config_literal_message (e : String) :
    read_config .linux ⟨some ("/x"), "/h", "/a"⟩
      (fun p => if p = CONFIG_FILENAME then FileState.unparseable e else .absent) =
    (["Error: could not load config: {e}"], .exit ExitCode.BAD_CONFIG) := rfl

/-- C10: on the Windows branch, read_config evaluates the undefined name
FILENAME before reading anything, so for every environment and file
system it raises NameError; the process then terminates with the generic
status 1, not with BAD_CONFIG, and the result is independent of the file
system. -/
theorem windows_branch_nameerror (env env2 : Env) (fs fs2 : String → FileState) :
    read_config .windows env fs = ([], .exc ("NameError: name FILENAME is not defined"))
    ∧ Outcome.finalExit (read_config .windows env fs).2 = some ExitCode.FAILURE
    ∧ ExitCode.FAILURE ≠ ExitCode.BAD_CONFIG
    ∧ read_config .windows env fs = read_config .windows env2 fs2 :=
  ⟨rfl, rfl, by decide, rfl⟩

/-- C8 counterexample: an exception raised while building the script
path (line 130, which sits outside the try block) is not caught: the
routine neither prints nor exits with the operation code, and the raw
exception escapes to the caller. -/
theorem script_join_exception_escapes :
    vivado_tcl_steps (.exc ("TypeError: boom")) (fun _ => .launched ⟨0, "", ""⟩)
        ExitCode.CHECKIN_ERROR = ([], .exc ("TypeError: boom"))
    ∧ (vivado_tcl_steps (.exc ("TypeError: boom")) (fun _ => .launched ⟨0, "", ""⟩)
        ExitCode.CHECKIN_ERROR).2 ≠ .exit ExitCode.CHECKIN_ERROR
    ∧ (vivado_tcl_steps (.exc ("TypeError: boom")) (fun _ => .launched ⟨0, "", ""⟩)
        ExitCode.CHECKIN_ERROR).2 ≠ .exit ExitCode.FAILURE :=
  ⟨rfl, by decide, by decide⟩

/-- C8 amended: every exception raised inside the try block (building
the cmd list, launching, communicating) is caught, printed as a
diagnostic and turned into sys.exit with the operation code, and no
exception ever escapes from that point on; only the script-path join on
line 130, being outside the try, can propagate raw. -/
theorem try_block_exception_folded (sp : String) (runner : String → RunResult)
    (code : Nat) :
    (∀ e, (vivado_tcl_steps (.ok sp) runner code).2 ≠ .exc e)
    ∧ (∀ e, runner sp = .raised e →
        vivado_tcl_steps (.ok sp) runner code = (["Exception: " ++ e], .exit code)) := by
  constructor
  · intro e
    unfold vivado_tcl_steps
    cases h : runner sp with
    | raised e2 => simp [h]
    | launched r =>
      by_cases hr : r.returncode = 0 <;> simp [h, hr]
  · intro e he
    simp [vivado_tcl_steps, he]

theorem try_block_exception_folded_witness :
    vivado_tcl_steps (.ok ("/sd/vivado-checkout.tcl"))
      (fun _ => .raised ("OSError: no such file")) ExitCode.CHECKOUT_ERROR =
    (["Exception: OSError: no such file"], .exit 4) :=
  (try_block_exception_folded ("/sd/vivado-checkout.tcl")
    (fun _ => .raised ("OSError: no such file")) ExitCode.CHECKOUT_ERROR).2
    ("OSError: no such file") rfl

/-- C9: for every launched process, the runner returns the child exit
status unchanged together with both streams decoded by the supplied
encoding and stripped of leading and trailing whitespace, for any exit
status, with no success or failure interpretation of its own. -/
theorem runCmd_unconditional_result (enc : List Nat → Option String) (p : RawProcess)
    (se so : String) (hse : enc p.stderr = some se) (hso : enc p.stdout = some so) :
    runCmd enc p = some ⟨p.returncode, pyStrip se, pyStrip so⟩ := by
  unfold runCmd
  rw [hse, hso]

theorem runCmd_unconditional_result_witness :
    runCmd utf8Decode ⟨7, [32, 104, 105, 32], [9, 111, 107, 10]⟩ =
      some ⟨7, "ok", "hi"⟩ :=
  runCmd_unconditional_result utf8Decode ⟨7, [32, 104, 105, 32], [9, 111, 107, 10]⟩
    ("\tok\n") (" hi ") rfl rfl

/-- C6: an absent candidate file is silently skipped; a present one is
merged with dict.update, which is key-by-key and last-loaded-wins: a key
in the later source wins, a key only in the earlier accumulated map is
preserved, so partial overlap never wholesale-replaces the map. -/
theorem config_merge_last_wins (fs : String → FileState) (config : Dict)
    (path : String) (rest : List String) (a b : Dict) (k : String) :
    (fs path = .absent → loadAll fs (path :: rest) config = loadAll fs rest config)
    ∧ (∀ d, fs path = .parsed d →
        loadAll fs (path :: rest) config = loadAll fs rest (Dict.update config d))
    ∧ ((b.map Prod.fst).Nodup →
        Dict.find (Dict.update a b) k =
          if (Dict.find b k).isSome then Dict.find b k else Dict.find a k) := by
  refine ⟨fun h => ?_, fun d h => ?_, fun hb => dictFind_update a b k hb⟩
  · simp only [loadAll, h]
  · simp only [loadAll, h]

theorem config_merge_last_wins_witness :
    Dict.find (Dict.update [("x", .str ("1")), ("y", .str ("2"))]
      [("y", .str ("3")), ("z", .str ("4"))]) "y" = some (.str ("3"))
    ∧ Dict.find (Dict.update [("x", .str ("1")), ("y", .str ("2"))]
      [("y", .str ("3")), ("z", .str ("4"))]) "x" = some (.str ("1"))
    ∧ loadAll (fun _ => .absent) ["missing.json"] [("x", .str ("1"))] =
        ([], .ok [("x", .str ("1"))]) := by
  refine ⟨?_, ?_, ?_⟩
  · rw [(config_merge_last_wins (fun _ => .absent) [] "p" [] [("x", .str ("1")), ("y", .str ("2"))]
      [("y", .str ("3")), ("z", .str ("4"))] "y").2.2 (by decide)]
    decide
  · rw [(config_merge_last_wins (fun _ => .absent) [] "p" [] [("x", .str ("1")), ("y", .str ("2"))]
      [("y", .str ("3")), ("z", .str ("4"))] "x").2.2 (by decide)]
    decide
  · rw [(config_merge_last_wins (fun _ => .absent) [("x", .str ("1"))] "missing.json" [] [] [] "x").1 rfl]
    rfl

/-- C1 helper shape: outcome analysis of vivado_tcl for a fixed script
name and failure code. -/
lemma vivado_tcl_outcomes (args : Args) (name : String) (code : Nat)
    (runner : List String → RunResult) :
    ((vivado_tcl args name code runner).2 = .ok () ↔
      ∃ r, runner (vivadoCmd args name) = .launched r ∧ r.returncode = 0)
    ∧ (∀ r, runner (vivadoCmd args name) = .launched r → r.returncode ≠ 0 →
        vivado_tcl args name code runner =
          (["Error (stderr): " ++ r.stderr, "Error (stdout): " ++ r.stdout], .exit code)) := by
  have hdef : vivado_tcl args name code runner =
      (match runner (vivadoCmd args name) with
        | RunResult.raised e => (["Exception: " ++ e], Outcome.exit code)
        | RunResult.launched r =>
          if r.returncode = 0 then ([], Outcome.ok ())
          else (["Error (stderr): " ++ r.stderr, "Error (stdout): " ++ r.stdout],
            Outcome.exit code)) := rfl
  constructor
  · rw [hdef]
    cases h : runner (vivadoCmd args name) with
    | raised e => simp [h]
    | launched r =>
      by_cases hr : r.returncode = 0 <;> simp [h, hr]
  · intro r h hr
    rw [hdef, h]
    simp [hr]

/-- C1: each operation succeeds exactly when the external process was
launched and returned exit status 0 (stderr content is irrelevant); on a
non-zero exit status the handler prints both captured streams and exits
with the operation-specific code (3 for checkin, 4 for checkout, 4 for
release), which is never the generic code 1. -/
theorem tool_failure_exit_contract (op : Op) (args : Args)
    (runner : List String → RunResult) :
    ((Op.run op args runner).2 = .ok () ↔
      ∃ r, runner (vivadoCmd args (Op.scriptName op)) = .launched r ∧ r.returncode = 0)
    ∧ (∀ r, runner (vivadoCmd args (Op.scriptName op)) = .launched r → r.returncode ≠ 0 →
        Op.run op args runner =
          (["Error (stderr): " ++ r.stderr, "Error (stdout): " ++ r.stdout],
            .exit (Op.failCode op)))
    ∧ Op.failCode op ≠ ExitCode.FAILURE
    ∧ (op = .checkin → Op.failCode op = 3)
    ∧ (op = .checkout → Op.failCode op = 4)
    ∧ (op = .release → Op.failCode op = 4) := by
  cases op <;>
    exact ⟨(vivado_tcl_outcomes _ _ _ runner).1, (vivado_tcl_outcomes _ _ _ runner).2,
      by decide, by intro h; first | rfl | simp at h,
      by intro h; first | rfl | simp at h, by intro h; first | rfl | simp at h⟩

theorem tool_failure_exit_contract_witness :
    Op.run .checkin ⟨false, "/r", "/sd", "/viv", "2019.1", "/w", "/x.xpr", "/z.zip"⟩
        (fun _ => .launched ⟨2, "E", "O"⟩) =
      (["Error (stderr): E", "Error (stdout): O"], .exit 3) :=
  (tool_failure_exit_contract .checkin
      ⟨false, "/r", "/sd", "/viv", "2019.1", "/w", "/x.xpr", "/z.zip"⟩
      (fun _ => .launched ⟨2, "E", "O"⟩)).2.1 ⟨2, "E", "O"⟩ rfl (by decide)


lemma fillDefaults_skip_present (rest : List (String × ConfigItem)) (m : Dict)
    (k0 : String) (item : ConfigItem) (h : (Dict.find m k0).isSome = true) :
    fillDefaults ((k0, item) :: rest) m = fillDefaults rest m := by
  simp [fillDefaults, h]

lemma fillDefaults_reqfirst (rest : List (String × ConfigItem)) (m : Dict)
    (k0 : String) (h : Dict.find m k0 = none) :
    fillDefaults ((k0, ⟨true, none⟩) :: rest) m =
      (["Error: Missing configuration key: " ++ k0], .exit ExitCode.BAD_CONFIG) := by
  simp [fillDefaults, h]

lemma fillDefaults_fill_absent (rest : List (String × ConfigItem)) (m : Dict)
    (k0 : String) (d : Value) (h : Dict.find m k0 = none) :
    fillDefaults ((k0, ⟨false, some d⟩) :: rest) m = fillDefaults rest (Dict.set m k0 d) := by
  simp [fillDefaults, h]

lemma firstMissing_set_other (m : Dict) (k0 : String) (d : Value)
    (h1 : ¬("project_name" : String) = k0) (h2 : ¬("vivado_path" : String) = k0)
    (h3 : ¬("vivado_version" : String) = k0) :
    firstMissingRequiredKey (Dict.set m k0 d) = firstMissingRequiredKey m := by
  simp [firstMissingRequiredKey, dictFind_set, h1, h2, h3]

lemma fillDefaults_from_vp (m3 : Dict) (k : String)
    (hk : firstMissingRequiredKey m3 = some k)
    (hpn : (Dict.find m3 ("project_name")).isSome = true) :
    fillDefaults
      [ ("vivado_path",    ⟨true, none⟩),
        ("vivado_version", ⟨true, none⟩),
        ("workspace_path", ⟨false, some (.str ("{repo_path}/sdk"))⟩),
        ("xpr_path",       ⟨false, some (.str ("proj/{project_name}.xpr"))⟩),
        ("zip_path",       ⟨false, some (.str ("{repo_path}/release/{project_name}.zip"))⟩) ]
      m3 =
      (["Error: Missing configuration key: " ++ k], .exit ExitCode.BAD_CONFIG) := by
  by_cases hvp : (Dict.find m3 ("vivado_path")).isSome
  · by_cases hvv : (Dict.find m3 ("vivado_version")).isSome
    · simp [firstMissingRequiredKey, hpn, hvp, hvv] at hk
    · have hvv2 : Dict.find m3 ("vivado_version") = none :=
        Option.not_isSome_iff_eq_none.mp (by simpa using hvv)
      have hk2 : k = "vivado_version" := by
        simp [firstMissingRequiredKey, hpn, hvp, hvv] at hk
        exact hk.symm
      subst hk2
      rw [fillDefaults_skip_present _ _ _ _ hvp, fillDefaults_reqfirst _ _ _ hvv2]
  · have hvp2 : Dict.find m3 ("vivado_path") = none :=
      Option.not_isSome_iff_eq_none.mp (by simpa using hvp)
    have hk2 : k = "vivado_path" := by
      simp [firstMissingRequiredKey, hpn, hvp] at hk
      exact hk.symm
    subst hk2
    rw [fillDefaults_reqfirst _ _ _ hvp2]

lemma fillDefaults_from_pn (m1 : Dict) (k : String)
    (hk : firstMissingRequiredKey m1 = some k) :
    fillDefaults
      [ ("project_name",   ⟨true, none⟩),
        ("repo_path",      ⟨false, some (.str ("."))⟩),
        ("vivado_path",    ⟨true, none⟩),
        ("vivado_version", ⟨true, none⟩),
        ("workspace_path", ⟨false, some (.str ("{repo_path}/sdk"))⟩),
        ("xpr_path",       ⟨false, some (.str ("proj/{project_name}.xpr"))⟩),
        ("zip_path",       ⟨false, some (.str ("{repo_path}/release/{project_name}.zip"))⟩) ]
      m1 =
      (["Error: Missing configuration key: " ++ k], .exit ExitCode.BAD_CONFIG) := by
  by_cases hpn : (Dict.find m1 ("project_name")).isSome
  · rw [fillDefaults_skip_present _ _ _ _ hpn]
    by_cases hrepo : (Dict.find m1 ("repo_path")).isSome
    · rw [fillDefaults_skip_present _ _ _ _ hrepo]
      exact fillDefaults_from_vp m1 k hk hpn
    · have hrepo2 : Dict.find m1 ("repo_path") = none :=
        Option.not_isSome_iff_eq_none.mp (by simpa using hrepo)
      rw [fillDefaults_fill_absent _ _ _ _ hrepo2]
      refine fillDefaults_from_vp _ k ?_ ?_
      · rw [firstMissing_set_other m1 _ _ (by decide) (by decide) (by decide)]
        exact hk
      · simpa [dictFind_set] using hpn
  · have hpn2 : Dict.find m1 ("project_name") = none :=
      Option.not_isSome_iff_eq_none.mp (by simpa using hpn)
    have hk2 : k = "project_name" := by
      simp [firstMissingRequiredKey, hpn] at hk
      exact hk.symm
    subst hk2
    rw [fillDefaults_reqfirst _ _ _ hpn2]

lemma fillDefaults_first_missing (m : Dict) (k : String)
    (hk : firstMissingRequiredKey m = some k) :
    fillDefaults CONFIG_ITEMS m =
      (["Error: Missing configuration key: " ++ k], .exit ExitCode.BAD_CONFIG) := by
  by_cases h0 : (Dict.find m ("no_hdf")).isSome
  · rw [show CONFIG_ITEMS = ("no_hdf", ⟨false, some (.bool false)⟩) ::
      [ ("project_name",   ⟨true, none⟩),
        ("repo_path",      ⟨false, some (.str ("."))⟩),
        ("vivado_path",    ⟨true, none⟩),
        ("vivado_version", ⟨true, none⟩),
        ("workspace_path", ⟨false, some (.str ("{repo_path}/sdk"))⟩),
        ("xpr_path",       ⟨false, some (.str ("proj/{project_name}.xpr"))⟩),
        ("zip_path",       ⟨false, some (.str ("{repo_path}/release/{project_name}.zip"))⟩) ]
      from rfl, fillDefaults_skip_present _ _ _ _ h0]
    exact fillDefaults_from_pn m k hk
  · have h02 : Dict.find m ("no_hdf") = none :=
      Option.not_isSome_iff_eq_none.mp (by simpa using h0)
    rw [show CONFIG_ITEMS = ("no_hdf", ⟨false, some (.bool false)⟩) ::
      [ ("project_name",   ⟨true, none⟩),
        ("repo_path",      ⟨false, some (.str ("."))⟩),
        ("vivado_path",    ⟨true, none⟩),
        ("vivado_version", ⟨true, none⟩),
        ("workspace_path", ⟨false, some (.str ("{repo_path}/sdk"))⟩),
        ("xpr_path",       ⟨false, some (.str ("proj/{project_name}.xpr"))⟩),
        ("zip_path",       ⟨false, some (.str ("{repo_path}/release/{project_name}.zip"))⟩) ]
      from rfl, fillDefaults_fill_absent _ _ _ _ h02]
    refine fillDefaults_from_pn _ k ?_
    rw [firstMissing_set_other m _ _ (by decide) (by decide) (by decide)]
    exact hk

/-- C2: when the merged candidate sources leave some required schema key
undefined, resolution prints an error naming the first missing required
key in schema order (project_name before vivado_path before
vivado_version) and exits with the configuration error code 2, without
reaching template expansion. -/
theorem missing_required_key_names_first (env : Env) (fs : String → FileState)
    (out : List String) (m : Dict) (k : String)
    (hload : loadAll fs (linuxPaths env) [] = (out, .ok m))
    (hk : firstMissingRequiredKey m = some k) :
    read_config .linux env fs =
      (out ++ ["Error: Missing configuration key: " ++ k], .exit ExitCode.BAD_CONFIG) := by
  unfold read_config
  rw [hload]
  simp [afterOut, fillDefaults_first_missing m k hk]

theorem missing_required_key_names_first_witness :
    read_config .linux ⟨some ("/x"), "/h", "/a"⟩ (fun _ => .absent) =
      (["Error: Missing configuration key: project_name"], .exit ExitCode.BAD_CONFIG) := by
  have h := missing_required_key_names_first ⟨some ("/x"), "/h", "/a"⟩ (fun _ => .absent)
    [] [] ("project_name") rfl rfl
  simpa using h

/-- C4: with the required keys supplied and repo_path = "/r",
project_name = "p", every absent optional key resolves to exactly its
declared default with templates expanded: workspace_path to "/r/sdk",
xpr_path to "proj/p.xpr", zip_path to "/r/release/p.zip", and the
boolean no_hdf default false passes through unexpanded. -/
theorem optional_defaults_expand (env : Env) (fs : String → FileState) (out : List String)
    (hload : loadAll fs (linuxPaths env) [] =
      (out, .ok [("project_name", .str ("p")), ("repo_path", .str ("/r")),
                 ("vivado_path", .str ("/opt/v")), ("vivado_version", .str ("2019.1"))])) :
    read_config .linux env fs =
      (out, .ok [ ("project_name", .str ("p")), ("repo_path", .str ("/r")),
                  ("vivado_path", .str ("/opt/v")), ("vivado_version", .str ("2019.1")),
                  ("no_hdf", .bool false),
                  ("workspace_path", .str ("/r/sdk")),
                  ("xpr_path", .str ("proj/p.xpr")),
                  ("zip_path", .str ("/r/release/p.zip")) ]) := by
  unfold read_config
  rw [hload]
  have h1 : fillDefaults CONFIG_ITEMS
      [("project_name", .str ("p")), ("repo_path", .str ("/r")),
       ("vivado_path", .str ("/opt/v")), ("vivado_version", .str ("2019.1"))] =
      ([], .ok [("project_name", .str ("p")), ("repo_path", .str ("/r")),
        ("vivado_path", .str ("/opt/v")), ("vivado_version", .str ("2019.1")),
        ("no_hdf", .bool false),
        ("workspace_path", .str ("{repo_path}/sdk")),
        ("xpr_path", .str ("proj/{project_name}.xpr")),
        ("zip_path", .str ("{repo_path}/release/{project_name}.zip"))]) := rfl
  have h2 : expandConfig [("project_name", .str ("p")), ("repo_path", .str ("/r")),
        ("vivado_path", .str ("/opt/v")), ("vivado_version", .str ("2019.1")),
        ("no_hdf", .bool false),
        ("workspace_path", .str ("{repo_path}/sdk")),
        ("xpr_path", .str ("proj/{project_name}.xpr")),
        ("zip_path", .str ("{repo_path}/release/{project_name}.zip"))] =
      ([], .ok [ ("project_name", .str ("p")), ("repo_path", .str ("/r")),
        ("vivado_path", .str ("/opt/v")), ("vivado_version", .str ("2019.1")),
        ("no_hdf", .bool false),
        ("workspace_path", .str ("/r/sdk")),
        ("xpr_path", .str ("proj/p.xpr")),
        ("zip_path", .str ("/r/release/p.zip")) ]) := rfl
  simp [afterOut, h1, h2]

theorem optional_defaults_expand_witness :
    read_config .linux ⟨some ("/x"), "/h", "/a"⟩
      (fun p => if p = CONFIG_FILENAME then
          .parsed [("project_name", .str ("p")), ("repo_path", .str ("/r")),
                   ("vivado_path", .str ("/opt/v")), ("vivado_version", .str ("2019.1"))]
        else .absent) =
      ([], .ok [ ("project_name", .str ("p")), ("repo_path", .str ("/r")),
                 ("vivado_path", .str ("/opt/v")), ("vivado_version", .str ("2019.1")),
                 ("no_hdf", .bool false),
                 ("workspace_path", .str ("/r/sdk")),
                 ("xpr_path", .str ("proj/p.xpr")),
                 ("zip_path", .str ("/r/release/p.zip")) ]) := by
  have h := optional_defaults_expand ⟨some ("/x"), "/h", "/a"⟩
    (fun p => if p = CONFIG_FILENAME then
        .parsed [("project_name", .str ("p")), ("repo_path", .str ("/r")),
                 ("vivado_path", .str ("/opt/v")), ("vivado_version", .str ("2019.1"))]
      else .absent) [] rfl
  exact h

/-- C3 counterexample: a cycle-free configuration in which the source
supplies repo_path = "\x7bproject_name\x7d": after resolution repo_path
itself is "p", yet workspace_path keeps the literal unresolved
placeholder text because expansion substituted the raw merged value, not
the referenced key's final value. -/
theorem template_multihop_cex :
    (read_config .linux ⟨some ("/x"), "/h", "/a"⟩
        (fun p => if p = CONFIG_FILENAME then
            .parsed [("project_name", .str ("p")), ("vivado_path", .str ("v")),
                     ("vivado_version", .str ("1")), ("repo_path", .str ("{project_name}"))]
          else .absent)).2 =
      .ok [ ("project_name", .str ("p")), ("vivado_path", .str ("v")),
            ("vivado_version", .str ("1")), ("repo_path", .str ("p")),
            ("no_hdf", .bool false),
            ("workspace_path", .str ("{project_name}/sdk")),
            ("xpr_path", .str ("proj/p.xpr")),
            ("zip_path", .str ("{project_name}/release/p.zip")) ]
    ∧ ("{project_name}/sdk" : String) ≠ "p/sdk"
    ∧ braceFree ("{project_name}/sdk") = false :=
  ⟨by decide, by decide, by decide⟩


/-- C3 amended: expansion is a single pass substituting each placeholder
with the referenced key's merged but unexpanded value; when the sources
supply exactly the three required keys with placeholder-free values, the
schema's own default templates reference only placeholder-free values,
so the resolved map contains no brace characters and hence no unresolved
placeholders. -/
theorem template_expansion_single_pass (env : Env) (fs : String → FileState)
    (out : List String) (pn vp vv : String)
    (hload : loadAll fs (linuxPaths env) [] =
      (out, .ok [("project_name", .str pn), ("vivado_path", .str vp),
                 ("vivado_version", .str vv)]))
    (hpn : braceFree pn = true) (hvp : braceFree vp = true)
    (hvv : braceFree vv = true) :
    read_config .linux env fs =
      (out, .ok [ ("project_name", .str pn), ("vivado_path", .str vp),
                  ("vivado_version", .str vv),
                  ("no_hdf", .bool false),
                  ("repo_path", .str (".")),
                  ("workspace_path", .str ("./sdk")),
                  ("xpr_path", .str ("proj/" ++ pn ++ ".xpr")),
                  ("zip_path", .str ("./release/" ++ pn ++ ".zip")) ])
    ∧ braceFree ("./sdk") = true
    ∧ braceFree ("proj/" ++ pn ++ ".xpr") = true
    ∧ braceFree ("./release/" ++ pn ++ ".zip") = true := by
  have h1 : fillDefaults CONFIG_ITEMS
      [("project_name", .str pn), ("vivado_path", .str vp), ("vivado_version", .str vv)] =
      ([], .ok [("project_name", .str pn), ("vivado_path", .str vp),
        ("vivado_version", .str vv), ("no_hdf", .bool false), ("repo_path", .str (".")),
        ("workspace_path", .str ("{repo_path}/sdk")),
        ("xpr_path", .str ("proj/{project_name}.xpr")),
        ("zip_path", .str ("{repo_path}/release/{project_name}.zip"))]) := rfl
  have e1 : pyFormat pn [("project_name", .str pn), ("vivado_path", .str vp),
      ("vivado_version", .str vv), ("no_hdf", .bool false), ("repo_path", .str (".")),
      ("workspace_path", .str ("{repo_path}/sdk")),
      ("xpr_path", .str ("proj/{project_name}.xpr")),
      ("zip_path", .str ("{repo_path}/release/{project_name}.zip"))] = .ok pn :=
    pyFormat_braceFree pn _ hpn
  have e2 : pyFormat vp [("project_name", .str pn), ("vivado_path", .str vp),
      ("vivado_version", .str vv), ("no_hdf", .bool false), ("repo_path", .str (".")),
      ("workspace_path", .str ("{repo_path}/sdk")),
      ("xpr_path", .str ("proj/{project_name}.xpr")),
      ("zip_path", .str ("{repo_path}/release/{project_name}.zip"))] = .ok vp :=
    pyFormat_braceFree vp _ hvp
  have e3 : pyFormat vv [("project_name", .str pn), ("vivado_path", .str vp),
      ("vivado_version", .str vv), ("no_hdf", .bool false), ("repo_path", .str (".")),
      ("workspace_path", .str ("{repo_path}/sdk")),
      ("xpr_path", .str ("proj/{project_name}.xpr")),
      ("zip_path", .str ("{repo_path}/release/{project_name}.zip"))] = .ok vv :=
    pyFormat_braceFree vv _ hvv
  have e4 : pyFormat (".") [("project_name", .str pn), ("vivado_path", .str vp),
      ("vivado_version", .str vv), ("no_hdf", .bool false), ("repo_path", .str (".")),
      ("workspace_path", .str ("{repo_path}/sdk")),
      ("xpr_path", .str ("proj/{project_name}.xpr")),
      ("zip_path", .str ("{repo_path}/release/{project_name}.zip"))] = .ok (".") := rfl
  have e5 : pyFormat ("{repo_path}/sdk") [("project_name", .str pn), ("vivado_path", .str vp),
      ("vivado_version", .str vv), ("no_hdf", .bool false), ("repo_path", .str (".")),
      ("workspace_path", .str ("{repo_path}/sdk")),
      ("xpr_path", .str ("proj/{project_name}.xpr")),
      ("zip_path", .str ("{repo_path}/release/{project_name}.zip"))] = .ok ("./sdk") := rfl
  have e6 : pyFormat ("proj/{project_name}.xpr") [("project_name", .str pn),
      ("vivado_path", .str vp),
      ("vivado_version", .str vv), ("no_hdf", .bool false), ("repo_path", .str (".")),
      ("workspace_path", .str ("{repo_path}/sdk")),
      ("xpr_path", .str ("proj/{project_name}.xpr")),
      ("zip_path", .str ("{repo_path}/release/{project_name}.zip"))] =
      .ok ("proj/" ++ pn ++ ".xpr") := rfl
  have e7 : pyFormat ("{repo_path}/release/{project_name}.zip") [("project_name", .str pn),
      ("vivado_path", .str vp),
      ("vivado_version", .str vv), ("no_hdf", .bool false), ("repo_path", .str (".")),
      ("workspace_path", .str ("{repo_path}/sdk")),
      ("xpr_path", .str ("proj/{project_name}.xpr")),
      ("zip_path", .str ("{repo_path}/release/{project_name}.zip"))] =
      .ok ("./release/" ++ pn ++ ".zip") := rfl
  have h2 : expandConfig [("project_name", .str pn), ("vivado_path", .str vp),
      ("vivado_version", .str vv), ("no_hdf", .bool false), ("repo_path", .str (".")),
      ("workspace_path", .str ("{repo_path}/sdk")),
      ("xpr_path", .str ("proj/{project_name}.xpr")),
      ("zip_path", .str ("{repo_path}/release/{project_name}.zip"))] =
      ([], .ok [ ("project_name", .str pn), ("vivado_path", .str vp),
        ("vivado_version", .str vv),
        ("no_hdf", .bool false),
        ("repo_path", .str (".")),
        ("workspace_path", .str ("./sdk")),
        ("xpr_path", .str ("proj/" ++ pn ++ ".xpr")),
        ("zip_path", .str ("./release/" ++ pn ++ ".zip")) ]) := by
    simp [expandConfig, expandEntries, e1, e2, e3, e4, e5, e6, e7]
  refine ⟨?_, rfl, ?_, ?_⟩
  · unfold read_config
    rw [hload]
    simp [afterOut, h1, h2]
  · have b1 : braceFree ("proj/") = true := rfl
    have b2 : braceFree (".xpr") = true := rfl
    simp [braceFree_append, hpn, b1, b2]
  · have b1 : braceFree ("./release/") = true := rfl
    have b2 : braceFree (".zip") = true := rfl
    simp [braceFree_append, hpn, b1, b2]

theorem template_expansion_single_pass_witness :
    read_config .linux ⟨some ("/x"), "/h", "/a"⟩
      (fun p => if p = CONFIG_FILENAME then
          .parsed [("project_name", .str ("p")), ("vivado_path", .str ("v")),
                   ("vivado_version", .str ("1"))]
        else .absent) =
      ([], .ok [ ("project_name", .str ("p")), ("vivado_path", .str ("v")),
                 ("vivado_version", .str ("1")),
                 ("no_hdf", .bool false),
                 ("repo_path", .str (".")),
                 ("workspace_path", .str ("./sdk")),
                 ("xpr_path", .str ("proj/p.xpr")),
                 ("zip_path", .str ("./release/p.zip")) ]) := by
  have h := template_expansion_single_pass ⟨some ("/x"), "/h", "/a"⟩
    (fun p => if p = CONFIG_FILENAME then
        .parsed [("project_name", .str ("p")), ("vivado_path", .str ("v")),
                 ("vivado_version", .str ("1"))]
      else .absent) [] ("p") ("v") ("1") rfl rfl rfl rfl
  exact h.1

end GitVivado
